import Mathlib

/-!
Verification of the DataCollector capture pipeline.

The development shallowly embeds the two capture scripts:

* `camera_capture_storage.py` — class `CameraCaptureStorage` with the
  `capture_and_store` loop (modes interval / all / manual / motion), the
  `save_frame` storage writer, `calculate_fps` telemetry and `stop_capture`.
* `capture_fhd.py` — class `MotionCapture1080p` with the
  `capture_and_record` loop, `detect_motion`, `save_frame`,
  `calculate_fps` and `stop_capture`.

Frames are modelled as lists of grayscale pixel intensities (the scripts
convert to grayscale before differencing); timestamps as rationals
(`time.time()` values); the filesystem as an association list from path
strings to content identifiers, with the overwrite semantics of
`cv2.imwrite`.  External library calls (`cv2.resize` downscaling) are kept
as an opaque function parameter of the configuration.
-/

/-- A frame, as the grayscale pixel buffer the differencing code sees. -/
abbrev Frame : Type := List Nat

/-- Model of the cv2 pipeline `absdiff` then `threshold(diff, T, 255,
THRESH_BINARY)` then `countNonZero`: the number of pixel positions where the
absolute intensity difference strictly exceeds the binarization threshold. -/
def countMotionPixels (diffThresh : Nat) (cur prev : Frame) : Nat :=
  (List.zipWith (fun a b => if diffThresh < Nat.dist a b then (255 : Nat) else 0) cur prev).countP
    (fun v => decide (v ≠ 0))

/-- Model of `collections.deque(maxlen=cap)` append: evict oldest when full. -/
def appendWindow (cap : Nat) (w : List ℚ) (t : ℚ) : List ℚ :=
  if w.length < cap then w ++ [t] else w.tail ++ [t]

/-- Resolution choice in `CameraCaptureStorage` (`"4k"` or `"1080p"`). -/
inductive Res where
  | fhd
  | uhd4k
  deriving DecidableEq

/-- Save mode of `capture_and_store`. -/
inductive SaveMode where
  | interval
  | all
  | manual
  | motion
  deriving DecidableEq

/-- Configuration of `CameraCaptureStorage.capture_and_store`: the
constructor fields and the `capture_and_store` arguments that the loop body
reads.  `downscale` stands for the opaque `cv2.resize(-, (960, 540))` call
used on the 4K motion path. -/
structure CCSConfig where
  resolution : Res
  save_mode : SaveMode
  save_interval : ℚ
  motion_threshold : Nat
  motion_cooldown : ℚ
  show_preview : Bool
  downscale : Frame → Frame

/-- Mutable state of one `capture_and_store` loop: the instance counters
plus the loop-local variables `prev_frame` and `last_motion_save`.
`motion_computations` instruments how many times the pixel-difference
computation (the `cv2.absdiff` block) actually executes. -/
structure CCSState where
  frame_count : Nat
  saved_images : Nat
  last_save_time : ℚ
  last_motion_save : ℚ
  prev_frame : Option Frame
  frame_times : List ℚ
  motion_computations : Nat

/-- State at entry of the `capture_and_store` loop (`__init__` defaults and
the loop-local initializers `prev_frame = None`, `last_motion_save = 0`). -/
def ccsInit : CCSState :=
  { frame_count := 0
    saved_images := 0
    last_save_time := 0
    last_motion_save := 0
    prev_frame := none
    frame_times := []
    motion_computations := 0 }

/-- Per-iteration input of the loop: the read timestamp and frame, whether
the preview keyboard reported a manual-save key this iteration, and whether
each of the (at most two) `cv2.imwrite` calls succeeds. -/
structure CCSInput where
  t : ℚ
  frame : Frame
  manualKey : Bool
  autoSaveOk : Bool
  manualSaveOk : Bool

/-- Motion pixel count used by `capture_and_store`: full-resolution
differencing at 1080p, downscaled differencing at 4K (binarization
threshold 25 in this script). -/
def ccsMotionPixels (cfg : CCSConfig) (frame pf : Frame) : Nat :=
  if cfg.resolution = Res.uhd4k then
    countMotionPixels 25 (cfg.downscale frame) (cfg.downscale pf)
  else
    countMotionPixels 25 frame pf

/-- The 4K path threshold adjustment: `effective_threshold =
motion_threshold // 16` (line `motion_threshold // 16  # Adjust for 1/4
size`). -/
def effectiveThreshold4k (motion_threshold : Nat) : Nat :=
  motion_threshold / 16

/-- Effective threshold the motion pixel count is compared against. -/
def ccsEffectiveThreshold (cfg : CCSConfig) : Nat :=
  if cfg.resolution = Res.uhd4k then effectiveThreshold4k cfg.motion_threshold
  else cfg.motion_threshold

/-- The `# Determine if we should save this frame` block of
`capture_and_store`: returns the `should_save` flag and the state updated
with any `last_save_time` / `last_motion_save` / instrumentation changes. -/
def ccsDecide (cfg : CCSConfig) (s : CCSState) (t : ℚ) (frame : Frame) :
    Bool × CCSState :=
  match cfg.save_mode with
  | SaveMode.interval =>
      if cfg.save_interval ≤ t - s.last_save_time then
        (true, { s with last_save_time := t })
      else (false, s)
  | SaveMode.all => (true, s)
  | SaveMode.manual => (false, s)
  | SaveMode.motion =>
      match s.prev_frame with
      | none => (false, s)
      | some pf =>
          if cfg.motion_cooldown ≤ t - s.last_motion_save then
            let s1 := { s with motion_computations := s.motion_computations + 1 }
            if ccsEffectiveThreshold cfg < ccsMotionPixels cfg frame pf then
              (true, { s1 with last_motion_save := t })
            else (false, s1)
          else (false, s)

/-- The two timestamp lines at the top of the loop body:
`frame_times.append(current_time)` and `frame_count += 1`. -/
def ccsTick (s : CCSState) (t : ℚ) : CCSState :=
  { s with frame_times := appendWindow 60 s.frame_times t
           frame_count := s.frame_count + 1 }

/-- The save and preview blocks at the bottom of the loop body: the
decision-triggered `save_frame` (incrementing `saved_images` only when
`cv2.imwrite` succeeds), the preview keyboard manual save, and the final
`prev_frame = frame.copy()`. -/
def ccsApplySaves (cfg : CCSConfig) (inp : CCSInput) (d : Bool × CCSState) : CCSState :=
  let s1 := d.2
  let s2 := if d.1 && inp.autoSaveOk then
              { s1 with saved_images := s1.saved_images + 1 }
            else s1
  let s3 := if cfg.show_preview && inp.manualKey && inp.manualSaveOk then
              { s2 with saved_images := s2.saved_images + 1 }
            else s2
  { s3 with prev_frame := some inp.frame }

/-- One iteration of the `capture_and_store` while-loop body, from the
timestamp read to the final `prev_frame = frame.copy()`. -/
def ccsStep (cfg : CCSConfig) (s : CCSState) (inp : CCSInput) : CCSState :=
  ccsApplySaves cfg inp (ccsDecide cfg (ccsTick s inp.t) inp.t inp.frame)

/-- Running the `capture_and_store` loop over a list of per-iteration
inputs. -/
def ccsRun (cfg : CCSConfig) (s : CCSState) (inps : List CCSInput) : CCSState :=
  inps.foldl (ccsStep cfg) s

/-- The per-frame save decisions of a run, observed through the
`saved_images` counter. -/
def ccsDecisions (cfg : CCSConfig) : CCSState → List CCSInput → List Bool
  | _, [] => []
  | s, inp :: inps =>
      let s1 := ccsStep cfg s inp
      decide (s.saved_images < s1.saved_images) :: ccsDecisions cfg s1 inps

/-!  The `capture_fhd.py` script: class `MotionCapture1080p`. -/

/-- Configuration fixed in `MotionCapture1080p.__init__`: motion threshold
1000 pixels and cooldown 1.0 s; both are kept as fields so properties can
quantify over them. -/
structure FhdConfig where
  motion_threshold : Nat
  motion_cooldown : ℚ

/-- The shipped configuration (`motion_threshold = 1000`,
`motion_cooldown = 1.0`). -/
def fhdDefaultConfig : FhdConfig :=
  { motion_threshold := 1000
    motion_cooldown := 1 }

/-- Mutable state of one `capture_and_record` loop.  `video_frames` counts
`video_writer.write` calls; `motion_computations` instruments how many
times `detect_motion` actually runs its pixel-difference computation. -/
structure FhdState where
  frame_count : Nat
  saved_images : Nat
  last_motion_save : ℚ
  prev_frame : Option Frame
  frame_times : List ℚ
  video_frames : Nat
  motion_computations : Nat

/-- State at entry of the `capture_and_record` loop (`__init__`
defaults). -/
def fhdInit : FhdState :=
  { frame_count := 0
    saved_images := 0
    last_motion_save := 0
    prev_frame := none
    frame_times := []
    video_frames := 0
    motion_computations := 0 }

/-- Per-iteration input of `capture_and_record`: timestamp, frame, and
whether the `cv2.imwrite` inside `save_frame` succeeds. -/
structure FhdInput where
  t : ℚ
  frame : Frame
  saveOk : Bool

/-- `MotionCapture1080p.detect_motion`: on the first call store the frame
and return `False`; otherwise compute the full-resolution pixel difference
(binarization threshold 15), update the stored previous frame, and compare
against `motion_threshold`. -/
def detect_motion (cfg : FhdConfig) (s : FhdState) (frame : Frame) :
    Bool × FhdState :=
  match s.prev_frame with
  | none => (false, { s with prev_frame := some frame })
  | some pf =>
      let motion_pixels := countMotionPixels 15 frame pf
      (decide (cfg.motion_threshold < motion_pixels),
       { s with prev_frame := some frame
                motion_computations := s.motion_computations + 1 })

/-- The top of the `capture_and_record` loop body: record the timestamp,
bump the frame counter, and write the frame to the session video. -/
def fhdTick (s : FhdState) (t : ℚ) : FhdState :=
  { s with frame_times := appendWindow 60 s.frame_times t
           frame_count := s.frame_count + 1
           video_frames := s.video_frames + 1 }

/-- The save block of the loop body: save only when motion was detected
and the cooldown has elapsed, in which case `last_motion_save` is set to
the current time whether or not the write succeeded. -/
def fhdApplySave (cfg : FhdConfig) (inp : FhdInput) (r : Bool × FhdState) : FhdState :=
  let s1 := r.2
  if r.1 = true ∧ cfg.motion_cooldown ≤ inp.t - s1.last_motion_save then
    let s2 := if inp.saveOk then { s1 with saved_images := s1.saved_images + 1 }
              else s1
    { s2 with last_motion_save := inp.t }
  else s1

/-- One iteration of the `capture_and_record` while-loop body:
`detect_motion` runs on every acquired frame. -/
def fhdStep (cfg : FhdConfig) (s : FhdState) (inp : FhdInput) : FhdState :=
  fhdApplySave cfg inp (detect_motion cfg (fhdTick s inp.t) inp.frame)

/-- Running the `capture_and_record` loop over a list of inputs. -/
def fhdRun (cfg : FhdConfig) (s : FhdState) (inps : List FhdInput) : FhdState :=
  inps.foldl (fhdStep cfg) s

/-!  Telemetry: `calculate_fps`, identical in both scripts. -/

/-- `calculate_fps`: zero with fewer than two window samples; otherwise
`(len(frame_times) - 1) / time_span` where `time_span = frame_times[-1] -
frame_times[0]`, and zero again when the span is not positive. -/
def calculate_fps (frame_times : List ℚ) : ℚ :=
  if frame_times.length < 2 then 0
  else
    let time_span := frame_times.getLastD 0 - frame_times.headD 0
    if 0 < time_span then ((frame_times.length - 1 : Nat) : ℚ) / time_span
    else 0

/-- Written from the words of the specification sentence for comparison
with the code (refinement check only): the rate is claimed to be the span
between oldest and newest timestamp divided by count minus one. -/
def fpsPerSpecSentence (frame_times : List ℚ) : ℚ :=
  if frame_times.length < 2 then 0
  else
    (frame_times.getLastD 0 - frame_times.headD 0) /
      ((frame_times.length - 1 : Nat) : ℚ)

/-!  Storage writer: filename generation and image files. -/

/-- Two-digit zero-padded decimal rendering, as `strftime` produces for
`%H`, `%M`, `%S` (valid for values below 100). -/
def pad2 (n : Nat) : String :=
  String.mk [Nat.digitChar (n / 10), Nat.digitChar (n % 10)]

/-- Three-digit zero-padded decimal rendering: the first three digits of
the six-digit `%f` microsecond field, i.e. the millisecond count (valid
for values below 1000). -/
def pad3 (n : Nat) : String :=
  String.mk [Nat.digitChar (n / 100), Nat.digitChar (n / 10 % 10), Nat.digitChar (n % 10)]

/-- A clock reading at millisecond resolution, as consumed by
`get_image_filename`. -/
structure ClockTime where
  hour : Nat
  minute : Nat
  second : Nat
  millis : Nat
  deriving DecidableEq

/-- The `strftime("%H-%M-%S-%f")[:-3]` timestamp string. -/
def timestampStr (ts : ClockTime) : String :=
  pad2 ts.hour ++ "-" ++ pad2 ts.minute ++ "-" ++ pad2 ts.second ++ "-" ++ pad3 ts.millis

/-- `get_image_filename`: prefix, underscore, millisecond timestamp,
`.jpg`. -/
def get_image_filename (pfx : String) (ts : ClockTime) : String :=
  pfx ++ "_" ++ timestampStr ts ++ ".jpg"

/-- The filesystem as an association list from path to content identifier;
insertion order is kept, one entry per path. -/
abbrev Fs : Type := List (String × Nat)

/-- `cv2.imwrite` semantics: writing to an existing path silently replaces
its content; otherwise the file is created. -/
def writeFile : Fs → String → Nat → Fs
  | [], path, c => [(path, c)]
  | (p, v) :: rest, path, c =>
      if p = path then (p, c) :: rest else (p, v) :: writeFile rest path c

/-- Content stored at a path, if any. -/
def readFile (fs : Fs) (path : String) : Option Nat :=
  match fs with
  | [] => none
  | (p, v) :: rest => if p = path then some v else readFile rest path

/-- `save_frame` as it touches the filesystem: generate the timestamped
filename and write the encoded frame there (no existence check, no
collision error). -/
def save_frame_fs (fs : Fs) (pfx : String) (ts : ClockTime) (content : Nat) : Fs :=
  writeFile fs (get_image_filename pfx ts) content

/-!  Shutdown: `stop_capture` in both scripts. -/

/-- Observable shutdown state of `CameraCaptureStorage.stop_capture`.
`cap_set` models `self.cap` being non-`None` (it stays set after
`release()`); the counters record how many times `cap.release()` ran and
how many times the session summary block was emitted. -/
structure CCSSessionEnd where
  running : Bool
  cap_set : Bool
  release_calls : Nat
  summary_emits : Nat
  frame_count : Nat
  deriving DecidableEq

/-- `CameraCaptureStorage.stop_capture`: clear `running`, release the
device whenever `self.cap` is set, and emit the summary whenever
`frame_count > 0`.  Nothing is cleared to make a second call a no-op. -/
def ccsStopCapture (s : CCSSessionEnd) : CCSSessionEnd :=
  let s1 := { s with running := false }
  let s2 := if s1.cap_set then { s1 with release_calls := s1.release_calls + 1 }
            else s1
  if 0 < s2.frame_count then { s2 with summary_emits := s2.summary_emits + 1 }
  else s2

/-- Observable shutdown state of `MotionCapture1080p.stop_capture`, with
the video writer alongside the device. -/
structure FhdSessionEnd where
  running : Bool
  cap_set : Bool
  writer_set : Bool
  release_calls : Nat
  writer_release_calls : Nat
  summary_emits : Nat
  frame_count : Nat
  deriving DecidableEq

/-- `MotionCapture1080p.stop_capture`: clear `running`, release the device
whenever `self.cap` is set, release the video writer whenever
`self.video_writer` is set, and emit the summary whenever
`frame_count > 0`. -/
def fhdStopCapture (s : FhdSessionEnd) : FhdSessionEnd :=
  let s1 := { s with running := false }
  let s2 := if s1.cap_set then { s1 with release_calls := s1.release_calls + 1 }
            else s1
  let s3 := if s2.writer_set then
              { s2 with writer_release_calls := s2.writer_release_calls + 1 }
            else s2
  if 0 < s3.frame_count then { s3 with summary_emits := s3.summary_emits + 1 }
  else s3

/-!  Concrete configurations used by witnesses and counterexamples. -/

/-- Interval mode at the 1080p defaults (`save_interval = 1.0`), preview
off. -/
def cfgInterval1 : CCSConfig :=
  { resolution := Res.fhd
    save_mode := SaveMode.interval
    save_interval := 1
    motion_threshold := 5000
    motion_cooldown := 1
    show_preview := false
    downscale := id }

/-- Save-every-frame mode with the preview window (and hence the manual
keyboard save path) enabled. -/
def cfgAllPreview : CCSConfig :=
  { resolution := Res.fhd
    save_mode := SaveMode.all
    save_interval := 1
    motion_threshold := 5000
    motion_cooldown := 1
    show_preview := true
    downscale := id }

/-- Motion mode at 4K. -/
def cfgMotion4k : CCSConfig :=
  { resolution := Res.uhd4k
    save_mode := SaveMode.motion
    save_interval := 1
    motion_threshold := 5000
    motion_cooldown := 1
    show_preview := false
    downscale := id }

/-- A `capture_fhd` configuration with cooldown 1 s and a zero pixel
threshold, so that any single changed pixel counts as motion. -/
def cfgFhd0 : FhdConfig :=
  { motion_threshold := 0
    motion_cooldown := 1 }

/-- An interval-mode loop input with no manual key and successful writes. -/
def mkIntervalInput (t : ℚ) : CCSInput :=
  { t := t, frame := [], manualKey := false, autoSaveOk := true, manualSaveOk := true }

/-!  Helper lemmas about single loop steps. -/

theorem ccsDecide_counters (cfg : CCSConfig) (s : CCSState) (t : ℚ) (frame : Frame) :
    (ccsDecide cfg s t frame).2.saved_images = s.saved_images ∧
    (ccsDecide cfg s t frame).2.frame_count = s.frame_count ∧
    (ccsDecide cfg s t frame).2.prev_frame = s.prev_frame := by
  unfold ccsDecide
  split
  · split <;> exact ⟨rfl, rfl, rfl⟩
  · exact ⟨rfl, rfl, rfl⟩
  · exact ⟨rfl, rfl, rfl⟩
  · split
    · exact ⟨rfl, rfl, rfl⟩
    · dsimp only
      split
      · split <;> exact ⟨rfl, rfl, rfl⟩
      · exact ⟨rfl, rfl, rfl⟩

theorem ccsApplySaves_saved (cfg : CCSConfig) (inp : CCSInput) (d : Bool × CCSState) :
    (ccsApplySaves cfg inp d).saved_images =
      d.2.saved_images + (if d.1 && inp.autoSaveOk then 1 else 0) +
        (if cfg.show_preview && inp.manualKey && inp.manualSaveOk then 1 else 0) := by
  unfold ccsApplySaves
  obtain ⟨b, s⟩ := d
  by_cases h1 : (b && inp.autoSaveOk) = true <;>
    by_cases h2 : (cfg.show_preview && inp.manualKey && inp.manualSaveOk) = true <;>
      simp [h1, h2]

theorem ccsApplySaves_rest (cfg : CCSConfig) (inp : CCSInput) (d : Bool × CCSState) :
    (ccsApplySaves cfg inp d).frame_count = d.2.frame_count ∧
    (ccsApplySaves cfg inp d).last_save_time = d.2.last_save_time ∧
    (ccsApplySaves cfg inp d).last_motion_save = d.2.last_motion_save ∧
    (ccsApplySaves cfg inp d).motion_computations = d.2.motion_computations ∧
    (ccsApplySaves cfg inp d).prev_frame = some inp.frame := by
  unfold ccsApplySaves
  obtain ⟨b, s⟩ := d
  by_cases h1 : (b && inp.autoSaveOk) = true <;>
    by_cases h2 : (cfg.show_preview && inp.manualKey && inp.manualSaveOk) = true <;>
      simp [h1, h2]

theorem ccsStep_frame_count (cfg : CCSConfig) (s : CCSState) (inp : CCSInput) :
    (ccsStep cfg s inp).frame_count = s.frame_count + 1 := by
  unfold ccsStep
  rw [(ccsApplySaves_rest cfg inp _).1,
      (ccsDecide_counters cfg (ccsTick s inp.t) inp.t inp.frame).2.1]
  rfl

theorem ccsStep_saved_le_two (cfg : CCSConfig) (s : CCSState) (inp : CCSInput) :
    (ccsStep cfg s inp).saved_images ≤ s.saved_images + 2 := by
  unfold ccsStep
  rw [ccsApplySaves_saved cfg inp _,
      (ccsDecide_counters cfg (ccsTick s inp.t) inp.t inp.frame).1]
  have hsv : (ccsTick s inp.t).saved_images = s.saved_images := rfl
  rw [hsv]
  split <;> split <;> omega

theorem ccsStep_saved_le_one (cfg : CCSConfig) (s : CCSState) (inp : CCSInput)
    (hkey : inp.manualKey = false) :
    (ccsStep cfg s inp).saved_images ≤ s.saved_images + 1 := by
  unfold ccsStep
  rw [ccsApplySaves_saved cfg inp _,
      (ccsDecide_counters cfg (ccsTick s inp.t) inp.t inp.frame).1]
  have hsv : (ccsTick s inp.t).saved_images = s.saved_images := rfl
  rw [hsv, hkey]
  simp only [Bool.and_false, Bool.false_and, Bool.false_eq_true, if_false]
  split <;> omega

theorem fhdTick_fields (s : FhdState) (t : ℚ) :
    (fhdTick s t).saved_images = s.saved_images ∧
    (fhdTick s t).frame_count = s.frame_count + 1 ∧
    (fhdTick s t).last_motion_save = s.last_motion_save ∧
    (fhdTick s t).prev_frame = s.prev_frame ∧
    (fhdTick s t).motion_computations = s.motion_computations := by
  exact ⟨rfl, rfl, rfl, rfl, rfl⟩

theorem detect_motion_none (cfg : FhdConfig) (s : FhdState) (f : Frame)
    (h : s.prev_frame = none) :
    detect_motion cfg s f = (false, { s with prev_frame := some f }) := by
  unfold detect_motion
  rw [h]

theorem detect_motion_some (cfg : FhdConfig) (s : FhdState) (f pf : Frame)
    (h : s.prev_frame = some pf) :
    detect_motion cfg s f =
      (decide (cfg.motion_threshold < countMotionPixels 15 f pf),
       { s with prev_frame := some f
                motion_computations := s.motion_computations + 1 }) := by
  unfold detect_motion
  rw [h]

theorem fhdApplySave_noTrigger (cfg : FhdConfig) (inp : FhdInput) (r : Bool × FhdState)
    (h : ¬ (r.1 = true ∧ cfg.motion_cooldown ≤ inp.t - r.2.last_motion_save)) :
    fhdApplySave cfg inp r = r.2 := by
  unfold fhdApplySave
  exact if_neg h

theorem fhdApplySave_trigger (cfg : FhdConfig) (inp : FhdInput) (r : Bool × FhdState)
    (hm : r.1 = true) (hc : cfg.motion_cooldown ≤ inp.t - r.2.last_motion_save) :
    (fhdApplySave cfg inp r).saved_images =
      r.2.saved_images + (if inp.saveOk then 1 else 0) ∧
    (fhdApplySave cfg inp r).last_motion_save = inp.t ∧
    (fhdApplySave cfg inp r).prev_frame = r.2.prev_frame ∧
    (fhdApplySave cfg inp r).frame_count = r.2.frame_count ∧
    (fhdApplySave cfg inp r).motion_computations = r.2.motion_computations := by
  unfold fhdApplySave
  rw [if_pos ⟨hm, hc⟩]
  by_cases hok : inp.saveOk = true <;> simp [hok]

theorem fhdApplySave_frame_fields (cfg : FhdConfig) (inp : FhdInput)
    (r : Bool × FhdState) :
    (fhdApplySave cfg inp r).prev_frame = r.2.prev_frame ∧
    (fhdApplySave cfg inp r).frame_count = r.2.frame_count ∧
    (fhdApplySave cfg inp r).motion_computations = r.2.motion_computations := by
  unfold fhdApplySave
  obtain ⟨b, s⟩ := r
  dsimp only
  by_cases h : (b = true ∧ cfg.motion_cooldown ≤ inp.t - s.last_motion_save)
  · rw [if_pos h]
    by_cases hok : inp.saveOk = true <;> simp [hok]
  · rw [if_neg h]
    exact ⟨rfl, rfl, rfl⟩

theorem detect_motion_prev (cfg : FhdConfig) (s : FhdState) (f : Frame) :
    (detect_motion cfg s f).2.prev_frame = some f := by
  unfold detect_motion
  cases hp : s.prev_frame
  · rfl
  · rfl

theorem fhdStep_prev_frame (cfg : FhdConfig) (s : FhdState) (inp : FhdInput) :
    (fhdStep cfg s inp).prev_frame = some inp.frame := by
  unfold fhdStep
  rw [(fhdApplySave_frame_fields cfg inp _).1, detect_motion_prev]

theorem fhdStep_first_frame (cfg : FhdConfig) (s : FhdState) (inp : FhdInput)
    (h : s.prev_frame = none) :
    (fhdStep cfg s inp).saved_images = s.saved_images ∧
    (fhdStep cfg s inp).last_motion_save = s.last_motion_save ∧
    (fhdStep cfg s inp).motion_computations = s.motion_computations ∧
    (fhdStep cfg s inp).frame_count = s.frame_count + 1 := by
  unfold fhdStep
  have hp : (fhdTick s inp.t).prev_frame = none := h
  rw [detect_motion_none cfg _ inp.frame hp]
  rw [fhdApplySave_noTrigger cfg inp _ (by simp)]
  exact ⟨rfl, rfl, rfl, rfl⟩

theorem fhdStep_cooldown_blocked (cfg : FhdConfig) (s : FhdState) (inp : FhdInput)
    (pf : Frame) (h : s.prev_frame = some pf)
    (hc : inp.t - s.last_motion_save < cfg.motion_cooldown) :
    (fhdStep cfg s inp).saved_images = s.saved_images ∧
    (fhdStep cfg s inp).last_motion_save = s.last_motion_save ∧
    (fhdStep cfg s inp).motion_computations = s.motion_computations + 1 := by
  unfold fhdStep
  have hp : (fhdTick s inp.t).prev_frame = some pf := h
  rw [detect_motion_some cfg _ inp.frame pf hp]
  rw [fhdApplySave_noTrigger cfg inp _ (by
    rintro ⟨-, hc2⟩
    exact absurd hc2 (not_le.mpr hc))]
  exact ⟨rfl, rfl, rfl⟩

theorem fhdStep_motion_save (cfg : FhdConfig) (s : FhdState) (inp : FhdInput)
    (pf : Frame) (h : s.prev_frame = some pf)
    (hm : cfg.motion_threshold < countMotionPixels 15 inp.frame pf)
    (hc : cfg.motion_cooldown ≤ inp.t - s.last_motion_save)
    (hok : inp.saveOk = true) :
    (fhdStep cfg s inp).saved_images = s.saved_images + 1 ∧
    (fhdStep cfg s inp).last_motion_save = inp.t ∧
    (fhdStep cfg s inp).motion_computations = s.motion_computations + 1 := by
  unfold fhdStep
  have hp : (fhdTick s inp.t).prev_frame = some pf := h
  rw [detect_motion_some cfg _ inp.frame pf hp]
  have hfacts := fhdApplySave_trigger cfg inp
    (decide (cfg.motion_threshold < countMotionPixels 15 inp.frame pf),
     { fhdTick s inp.t with prev_frame := some inp.frame
                            motion_computations := (fhdTick s inp.t).motion_computations + 1 })
    (by simpa using hm) hc
  rw [hfacts.1, hfacts.2.1, hfacts.2.2.2.2, hok]
  exact ⟨rfl, rfl, rfl⟩

theorem fhdStep_always_computes (cfg : FhdConfig) (s : FhdState) (inp : FhdInput)
    (pf : Frame) (h : s.prev_frame = some pf) :
    (fhdStep cfg s inp).motion_computations = s.motion_computations + 1 := by
  unfold fhdStep
  have hp : (fhdTick s inp.t).prev_frame = some pf := h
  rw [(fhdApplySave_frame_fields cfg inp _).2.2,
      detect_motion_some cfg _ inp.frame pf hp]
  rfl

theorem detect_motion_counters (cfg : FhdConfig) (s : FhdState) (f : Frame) :
    (detect_motion cfg s f).2.frame_count = s.frame_count ∧
    (detect_motion cfg s f).2.saved_images = s.saved_images ∧
    (detect_motion cfg s f).2.last_motion_save = s.last_motion_save := by
  unfold detect_motion
  cases hp : s.prev_frame
  · exact ⟨rfl, rfl, rfl⟩
  · exact ⟨rfl, rfl, rfl⟩

theorem fhdApplySave_saved_le (cfg : FhdConfig) (inp : FhdInput) (r : Bool × FhdState) :
    (fhdApplySave cfg inp r).saved_images ≤ r.2.saved_images + 1 := by
  unfold fhdApplySave
  obtain ⟨b, s⟩ := r
  dsimp only
  by_cases h : (b = true ∧ cfg.motion_cooldown ≤ inp.t - s.last_motion_save)
  · rw [if_pos h]
    by_cases hok : inp.saveOk = true <;> simp [hok]
  · rw [if_neg h]
    omega

theorem fhdStep_frame_count (cfg : FhdConfig) (s : FhdState) (inp : FhdInput) :
    (fhdStep cfg s inp).frame_count = s.frame_count + 1 := by
  unfold fhdStep
  rw [(fhdApplySave_frame_fields cfg inp _).2.1,
      (detect_motion_counters cfg (fhdTick s inp.t) inp.frame).1]
  rfl

theorem fhdStep_saved_le_one (cfg : FhdConfig) (s : FhdState) (inp : FhdInput) :
    (fhdStep cfg s inp).saved_images ≤ s.saved_images + 1 := by
  unfold fhdStep
  have h1 := fhdApplySave_saved_le cfg inp (detect_motion cfg (fhdTick s inp.t) inp.frame)
  have h2 := (detect_motion_counters cfg (fhdTick s inp.t) inp.frame).2.1
  have h3 : (fhdTick s inp.t).saved_images = s.saved_images := rfl
  omega

/-!  Run-level counter invariants. -/

theorem ccsRun_saved_le_two (cfg : CCSConfig) :
    ∀ (inps : List CCSInput) (s : CCSState),
      s.saved_images ≤ 2 * s.frame_count →
      (ccsRun cfg s inps).saved_images ≤ 2 * (ccsRun cfg s inps).frame_count := by
  intro inps
  induction inps with
  | nil => intro s h; exact h
  | cons inp rest ih =>
      intro s h
      have h1 := ccsStep_saved_le_two cfg s inp
      have h2 := ccsStep_frame_count cfg s inp
      have h3 : (ccsStep cfg s inp).saved_images ≤ 2 * (ccsStep cfg s inp).frame_count := by
        omega
      simpa [ccsRun, List.foldl] using ih (ccsStep cfg s inp) h3

theorem ccsRun_saved_le_one (cfg : CCSConfig) :
    ∀ (inps : List CCSInput) (s : CCSState),
      (∀ i ∈ inps, i.manualKey = false) →
      s.saved_images ≤ s.frame_count →
      (ccsRun cfg s inps).saved_images ≤ (ccsRun cfg s inps).frame_count := by
  intro inps
  induction inps with
  | nil => intro s _ h; exact h
  | cons inp rest ih =>
      intro s hkeys h
      have h1 := ccsStep_saved_le_one cfg s inp (hkeys inp (List.mem_cons_self inp rest))
      have h2 := ccsStep_frame_count cfg s inp
      have h3 : (ccsStep cfg s inp).saved_images ≤ (ccsStep cfg s inp).frame_count := by
        omega
      have hkeys2 : ∀ i ∈ rest, i.manualKey = false := by
        intro i hi
        exact hkeys i (List.mem_cons_of_mem inp hi)
      simpa [ccsRun, List.foldl] using ih (ccsStep cfg s inp) hkeys2 h3

theorem fhdRun_saved_le (cfg : FhdConfig) :
    ∀ (inps : List FhdInput) (s : FhdState),
      s.saved_images ≤ s.frame_count →
      (fhdRun cfg s inps).saved_images ≤ (fhdRun cfg s inps).frame_count := by
  intro inps
  induction inps with
  | nil => intro s h; exact h
  | cons inp rest ih =>
      intro s h
      have h1 := fhdStep_saved_le_one cfg s inp
      have h2 := fhdStep_frame_count cfg s inp
      have h3 : (fhdStep cfg s inp).saved_images ≤ (fhdStep cfg s inp).frame_count := by
        omega
      simpa [fhdRun, List.foldl] using ih (fhdStep cfg s inp) h3

/-!  Small facts about pixels, digits and the filesystem. -/

theorem countMotionPixels_self (diffThresh : Nat) (f : Frame) :
    countMotionPixels diffThresh f f = 0 := by
  induction f with
  | nil => rfl
  | cons a l ih =>
      unfold countMotionPixels at ih ⊢
      simp only [List.zipWith, Nat.dist_self, Nat.not_lt_zero, if_neg, List.countP_cons]
      simp [ih]

theorem digitChar_isDigit {d : Nat} (h : d < 10) :
    (Nat.digitChar d).isDigit = true := by
  interval_cases d <;> rfl

theorem readFile_writeFile (fs : Fs) (p : String) (c : Nat) :
    readFile (writeFile fs p c) p = some c := by
  induction fs with
  | nil => simp [writeFile, readFile]
  | cons kv rest ih =>
      obtain ⟨k, v⟩ := kv
      by_cases hk : k = p <;> simp [writeFile, readFile, hk, ih]

/-!  Case lemmas for the decision block of `capture_and_store`. -/

theorem ccsDecide_interval_save (cfg : CCSConfig) (s : CCSState) (t : ℚ) (f : Frame)
    (hmode : cfg.save_mode = SaveMode.interval)
    (hc : cfg.save_interval ≤ t - s.last_save_time) :
    ccsDecide cfg s t f = (true, { s with last_save_time := t }) := by
  unfold ccsDecide
  rw [hmode]
  exact if_pos hc

theorem ccsDecide_interval_skip (cfg : CCSConfig) (s : CCSState) (t : ℚ) (f : Frame)
    (hmode : cfg.save_mode = SaveMode.interval)
    (hc : t - s.last_save_time < cfg.save_interval) :
    ccsDecide cfg s t f = (false, s) := by
  unfold ccsDecide
  rw [hmode]
  exact if_neg (not_le.mpr hc)

theorem ccsDecide_motion_cooldown (cfg : CCSConfig) (s : CCSState) (t : ℚ) (f pf : Frame)
    (hmode : cfg.save_mode = SaveMode.motion) (hp : s.prev_frame = some pf)
    (hc : t - s.last_motion_save < cfg.motion_cooldown) :
    ccsDecide cfg s t f = (false, s) := by
  unfold ccsDecide
  rw [hmode, hp]
  exact if_neg (not_le.mpr hc)

theorem ccsDecide_motion_detect (cfg : CCSConfig) (s : CCSState) (t : ℚ) (f pf : Frame)
    (hmode : cfg.save_mode = SaveMode.motion) (hp : s.prev_frame = some pf)
    (hc : cfg.motion_cooldown ≤ t - s.last_motion_save)
    (hm : ccsEffectiveThreshold cfg < ccsMotionPixels cfg f pf) :
    ccsDecide cfg s t f =
      (true, { s with motion_computations := s.motion_computations + 1
                      last_motion_save := t }) := by
  unfold ccsDecide
  simp only [hmode, hp]
  rw [if_pos hc, if_pos hm]

theorem ccsDecide_motion_still (cfg : CCSConfig) (s : CCSState) (t : ℚ) (f pf : Frame)
    (hmode : cfg.save_mode = SaveMode.motion) (hp : s.prev_frame = some pf)
    (hc : cfg.motion_cooldown ≤ t - s.last_motion_save)
    (hm : ¬ ccsEffectiveThreshold cfg < ccsMotionPixels cfg f pf) :
    ccsDecide cfg s t f =
      (false, { s with motion_computations := s.motion_computations + 1 }) := by
  unfold ccsDecide
  simp only [hmode, hp]
  rw [if_pos hc, if_neg hm]

/-!  Claim theorems. -/

/-- Claim C8: for every pixel-difference count and every motion threshold,
the 4K downscaled save decision of `capture_and_store` — comparing the
downscaled count against `motion_threshold // 16` — is equivalent to
scaling the count back up by the inverse area factor 16 and comparing
against the caller-supplied threshold, so the threshold unit is
resolution-independent. -/
theorem motion_threshold_resolution_independent (cfg : CCSConfig) (frame pf : Frame)
    (h4k : cfg.resolution = Res.uhd4k) :
    (ccsEffectiveThreshold cfg < ccsMotionPixels cfg frame pf ↔
      cfg.motion_threshold < 16 * ccsMotionPixels cfg frame pf) := by
  unfold ccsEffectiveThreshold effectiveThreshold4k
  rw [if_pos h4k]
  omega

/-- Witness for C8 at the concrete 4K configuration and a one-pixel frame
pair. -/
theorem motion_threshold_resolution_independent_witness :
    (ccsEffectiveThreshold cfgMotion4k < ccsMotionPixels cfgMotion4k [100] [0] ↔
      cfgMotion4k.motion_threshold < 16 * ccsMotionPixels cfgMotion4k [100] [0]) :=
  motion_threshold_resolution_independent cfgMotion4k [100] [0] rfl

/-- Claim C9: the first `detect_motion` call after session start returns
`false` regardless of the frame content and only stores that frame as the
new baseline; and a frame pixel-identical to the stored previous frame is
never reported as motion, for any motion threshold. -/
theorem detect_motion_first_call_and_identical (cfg : FhdConfig) (s : FhdState)
    (f : Frame) :
    (s.prev_frame = none →
        detect_motion cfg s f = (false, { s with prev_frame := some f })) ∧
    (s.prev_frame = some f → (detect_motion cfg s f).1 = false) := by
  constructor
  · intro h
    exact detect_motion_none cfg s f h
  · intro h
    rw [detect_motion_some cfg s f f h]
    simp [countMotionPixels_self]

/-- Witness for C9 at a concrete fresh state and frame. -/
theorem detect_motion_first_call_and_identical_witness :
    detect_motion fhdDefaultConfig fhdInit [7, 7, 7] =
      (false, { fhdInit with prev_frame := some [7, 7, 7] }) :=
  (detect_motion_first_call_and_identical fhdDefaultConfig fhdInit [7, 7, 7]).1 rfl

/-- Claim C10: because `last_save_time` is initialized to 0 rather than to
the session start time, the very first frame of an interval-mode session is
saved whenever its timestamp is at least the interval (always the case for
wall-clock time), so the first save is not delayed by one interval. -/
theorem interval_first_frame_saved (cfg : CCSConfig) (inp : CCSInput)
    (hmode : cfg.save_mode = SaveMode.interval)
    (hok : inp.autoSaveOk = true)
    (ht : cfg.save_interval ≤ inp.t) :
    1 ≤ (ccsStep cfg ccsInit inp).saved_images ∧
    (ccsStep cfg ccsInit inp).last_save_time = inp.t := by
  have hc : cfg.save_interval ≤ inp.t - (ccsTick ccsInit inp.t).last_save_time := by
    have h0 : (ccsTick ccsInit inp.t).last_save_time = 0 := rfl
    rw [h0, sub_zero]
    exact ht
  have hd := ccsDecide_interval_save cfg (ccsTick ccsInit inp.t) inp.t inp.frame hmode hc
  unfold ccsStep
  rw [hd]
  constructor
  · rw [ccsApplySaves_saved cfg inp _]
    simp [hok]
    split <;> omega
  · rw [(ccsApplySaves_rest cfg inp _).2.1]

/-- Witness for C10: first frame at t = 5 with a 1 s interval is saved. -/
theorem interval_first_frame_saved_witness :
    1 ≤ (ccsStep cfgInterval1 ccsInit (mkIntervalInput 5)).saved_images ∧
    (ccsStep cfgInterval1 ccsInit (mkIntervalInput 5)).last_save_time = 5 :=
  interval_first_frame_saved cfgInterval1 (mkIntervalInput 5) rfl rfl (by norm_num [cfgInterval1, mkIntervalInput])

/-- Claim C1 counterexample: in save-all mode with the preview shown, a
manual keyboard save on the very first frame makes `saved_images = 2` while
`frame_count = 1`, so `frames_saved ≤ frames_seen` fails inside the loop. -/
theorem saved_exceeds_seen_counterexample :
    ¬ ((ccsRun cfgAllPreview ccsInit
          [{ t := 0, frame := [], manualKey := true,
             autoSaveOk := true, manualSaveOk := true }]).saved_images ≤
       (ccsRun cfgAllPreview ccsInit
          [{ t := 0, frame := [], manualKey := true,
             autoSaveOk := true, manualSaveOk := true }]).frame_count) := by
  norm_num [ccsRun, ccsStep, ccsTick, ccsApplySaves, ccsDecide, ccsInit,
    cfgAllPreview, appendWindow]

/-- Claim C1 (amended): a frame can be saved at most twice (one
mode-triggered save plus one manual keyboard save), so
`saved_images ≤ 2 * frame_count` holds at every point of every
`capture_and_store` run; when no manual keyboard save occurs,
`saved_images ≤ frame_count` holds, and it always holds for
`capture_and_record`, which has no manual save path. -/
theorem saved_counter_bounds :
    (∀ (cfg : CCSConfig) (inps : List CCSInput),
        (ccsRun cfg ccsInit inps).saved_images ≤
          2 * (ccsRun cfg ccsInit inps).frame_count) ∧
    (∀ (cfg : CCSConfig) (inps : List CCSInput),
        (∀ i ∈ inps, i.manualKey = false) →
        (ccsRun cfg ccsInit inps).saved_images ≤
          (ccsRun cfg ccsInit inps).frame_count) ∧
    (∀ (cfg : FhdConfig) (inps : List FhdInput),
        (fhdRun cfg fhdInit inps).saved_images ≤
          (fhdRun cfg fhdInit inps).frame_count) := by
  refine ⟨?_, ?_, ?_⟩
  · intro cfg inps
    exact ccsRun_saved_le_two cfg inps ccsInit (Nat.zero_le _)
  · intro cfg inps h
    exact ccsRun_saved_le_one cfg inps ccsInit h (Nat.zero_le _)
  · intro cfg inps
    exact fhdRun_saved_le cfg inps fhdInit (Nat.zero_le _)

/-- Claim C2: calling `stop_capture` twice in a row performs the resource
releases and emits the session summary once per call — twice in total, not
once — in both scripts: the code is not idempotent. -/
theorem stop_capture_double_invocation :
    ((ccsStopCapture (ccsStopCapture
        { running := true, cap_set := true, release_calls := 0,
          summary_emits := 0, frame_count := 5 })).release_calls = 2 ∧
     (ccsStopCapture (ccsStopCapture
        { running := true, cap_set := true, release_calls := 0,
          summary_emits := 0, frame_count := 5 })).summary_emits = 2) ∧
    ((fhdStopCapture (fhdStopCapture
        { running := true, cap_set := true, writer_set := true,
          release_calls := 0, writer_release_calls := 0,
          summary_emits := 0, frame_count := 5 })).release_calls = 2 ∧
     (fhdStopCapture (fhdStopCapture
        { running := true, cap_set := true, writer_set := true,
          release_calls := 0, writer_release_calls := 0,
          summary_emits := 0, frame_count := 5 })).writer_release_calls = 2 ∧
     (fhdStopCapture (fhdStopCapture
        { running := true, cap_set := true, writer_set := true,
          release_calls := 0, writer_release_calls := 0,
          summary_emits := 0, frame_count := 5 })).summary_emits = 2) := by
  decide

/-- Claim C7 counterexample: on the window [0, 2] the code computes
(count - 1) / span = 1/2, while the specification sentence "span divided by
count - 1" gives 2: the two formulas disagree. -/
theorem fps_formula_counterexample :
    calculate_fps [0, 2] = 1/2 ∧
    fpsPerSpecSentence [0, 2] = 2 ∧
    ¬ (calculate_fps [0, 2] = fpsPerSpecSentence [0, 2]) := by
  refine ⟨?_, ?_, ?_⟩ <;> norm_num [calculate_fps, fpsPerSpecSentence]

/-- Claim C7 (amended): the telemetry tick computes the instantaneous rate
as count - 1 divided by the span between the oldest and newest timestamps
of the bounded window, and yields zero when the window holds fewer than two
samples or the span is not positive. -/
theorem fps_window_formula :
    (∀ w : List ℚ, w.length < 2 → calculate_fps w = 0) ∧
    (∀ w : List ℚ, 2 ≤ w.length → 0 < w.getLastD 0 - w.headD 0 →
        calculate_fps w = ((w.length - 1 : Nat) : ℚ) / (w.getLastD 0 - w.headD 0)) ∧
    (∀ w : List ℚ, 2 ≤ w.length → w.getLastD 0 - w.headD 0 ≤ 0 →
        calculate_fps w = 0) := by
  refine ⟨?_, ?_, ?_⟩
  · intro w h
    unfold calculate_fps
    rw [if_pos h]
  · intro w h2 hs
    unfold calculate_fps
    rw [if_neg (not_lt.mpr h2)]
    dsimp only
    rw [if_pos hs]
  · intro w h2 hs
    unfold calculate_fps
    rw [if_neg (not_lt.mpr h2)]
    dsimp only
    rw [if_neg (not_lt.mpr hs)]

/-- Claim C4 counterexample: with interval 1.0 s and timestamps
[0, 0.4, 1.1, 1.3, 2.2], the loop decides [false, false, true, false,
true], not [true, false, true, false, true]: at t = 0 the code computes
0 - last_save_time = 0 < 1.0 and does not save. -/
theorem interval_trace_counterexample :
    ¬ (ccsDecisions cfgInterval1 ccsInit
        [mkIntervalInput 0, mkIntervalInput (2/5), mkIntervalInput (11/10),
         mkIntervalInput (13/10), mkIntervalInput (11/5)] =
       [true, false, true, false, true]) := by
  intro hcontra
  have h : ccsDecisions cfgInterval1 ccsInit
      [mkIntervalInput 0, mkIntervalInput (2/5), mkIntervalInput (11/10),
       mkIntervalInput (13/10), mkIntervalInput (11/5)] =
      [false, false, true, false, true] := by
    norm_num [ccsDecisions, ccsStep, ccsTick, ccsApplySaves, ccsDecide,
      ccsInit, cfgInterval1, mkIntervalInput, appendWindow]
  rw [h] at hcontra
  exact absurd hcontra (by decide)

/-- Claim C4 (amended): in interval mode a frame is saved iff
`now - lastSaveTime ≥ intervalSeconds`, with `lastSaveTime := now` on a
save and unchanged otherwise; on the timestamp trace
[0, 0.4, 1.1, 1.3, 2.2] with interval 1.0 s the decisions are
[false, false, true, false, true] (the first frame is not saved because
its timestamp is below the interval). -/
theorem interval_trigger_rule (cfg : CCSConfig) (s : CCSState) (inp : CCSInput)
    (hmode : cfg.save_mode = SaveMode.interval)
    (hok : inp.autoSaveOk = true) (hkey : inp.manualKey = false) :
    (cfg.save_interval ≤ inp.t - s.last_save_time →
       (ccsStep cfg s inp).saved_images = s.saved_images + 1 ∧
       (ccsStep cfg s inp).last_save_time = inp.t) ∧
    (inp.t - s.last_save_time < cfg.save_interval →
       (ccsStep cfg s inp).saved_images = s.saved_images ∧
       (ccsStep cfg s inp).last_save_time = s.last_save_time) ∧
    ccsDecisions cfgInterval1 ccsInit
        [mkIntervalInput 0, mkIntervalInput (2/5), mkIntervalInput (11/10),
         mkIntervalInput (13/10), mkIntervalInput (11/5)] =
      [false, false, true, false, true] := by
  refine ⟨?_, ?_, ?_⟩
  · intro hc
    have hc2 : cfg.save_interval ≤ inp.t - (ccsTick s inp.t).last_save_time := hc
    have hd := ccsDecide_interval_save cfg (ccsTick s inp.t) inp.t inp.frame hmode hc2
    unfold ccsStep
    rw [hd]
    constructor
    · rw [ccsApplySaves_saved cfg inp _]
      simp [hok, hkey]
      rfl
    · rw [(ccsApplySaves_rest cfg inp _).2.1]
  · intro hc
    have hc2 : inp.t - (ccsTick s inp.t).last_save_time < cfg.save_interval := hc
    have hd := ccsDecide_interval_skip cfg (ccsTick s inp.t) inp.t inp.frame hmode hc2
    unfold ccsStep
    rw [hd]
    constructor
    · rw [ccsApplySaves_saved cfg inp _]
      simp [hkey]
      rfl
    · rw [(ccsApplySaves_rest cfg inp _).2.1]
      rfl
  · norm_num [ccsDecisions, ccsStep, ccsTick, ccsApplySaves, ccsDecide,
      ccsInit, cfgInterval1, mkIntervalInput, appendWindow]

/-- Witness for C4 at the concrete interval configuration, initial state
and a first frame at t = 5. -/
theorem interval_trigger_rule_witness :
    (cfgInterval1.save_interval ≤
        (mkIntervalInput 5).t - ccsInit.last_save_time →
       (ccsStep cfgInterval1 ccsInit (mkIntervalInput 5)).saved_images =
           ccsInit.saved_images + 1 ∧
       (ccsStep cfgInterval1 ccsInit (mkIntervalInput 5)).last_save_time =
           (mkIntervalInput 5).t) ∧
    ((mkIntervalInput 5).t - ccsInit.last_save_time < cfgInterval1.save_interval →
       (ccsStep cfgInterval1 ccsInit (mkIntervalInput 5)).saved_images =
           ccsInit.saved_images ∧
       (ccsStep cfgInterval1 ccsInit (mkIntervalInput 5)).last_save_time =
           ccsInit.last_save_time) ∧
    ccsDecisions cfgInterval1 ccsInit
        [mkIntervalInput 0, mkIntervalInput (2/5), mkIntervalInput (11/10),
         mkIntervalInput (13/10), mkIntervalInput (11/5)] =
      [false, false, true, false, true] :=
  interval_trigger_rule cfgInterval1 ccsInit (mkIntervalInput 5) rfl rfl rfl

/-- Claim C3 counterexample: in `capture_and_record`, after a motion save
at t = 1 the frame at t = 5/4 is still inside the 1 s cooldown, yet
`detect_motion` runs its pixel-difference computation on it — detection is
not skipped during cooldown in that loop, only the save is. -/
theorem motion_detection_during_cooldown_counterexample :
    ((fhdRun cfgFhd0 fhdInit
        [{ t := 0, frame := [0], saveOk := true },
         { t := 1, frame := [100], saveOk := true }]).last_motion_save = 1 ∧
     (5/4 : ℚ) -
        (fhdRun cfgFhd0 fhdInit
          [{ t := 0, frame := [0], saveOk := true },
           { t := 1, frame := [100], saveOk := true }]).last_motion_save <
       cfgFhd0.motion_cooldown) ∧
    (fhdStep cfgFhd0
        (fhdRun cfgFhd0 fhdInit
          [{ t := 0, frame := [0], saveOk := true },
           { t := 1, frame := [100], saveOk := true }])
        { t := 5/4, frame := [200], saveOk := true }).motion_computations =
      (fhdRun cfgFhd0 fhdInit
        [{ t := 0, frame := [0], saveOk := true },
         { t := 1, frame := [100], saveOk := true }]).motion_computations + 1 := by
  norm_num [fhdRun, fhdStep, fhdTick, fhdApplySave, detect_motion, fhdInit,
    cfgFhd0, appendWindow, countMotionPixels, Nat.dist]

/-- Claim C3 (amended): in `capture_and_store` motion mode the detector is
consulted only when `now - last_motion_save ≥ motion_cooldown` — during
cooldown the pixel-difference computation itself is skipped and nothing is
saved — and on a positive detection the frame is saved and
`last_motion_save` is set to now; in `capture_and_record`, by contrast, the
detection computation runs on every frame that has a stored baseline and
only the save is gated by the cooldown. -/
theorem motion_cooldown_gating :
    (∀ (cfg : CCSConfig) (s : CCSState) (inp : CCSInput) (pf : Frame),
        cfg.save_mode = SaveMode.motion → s.prev_frame = some pf →
        inp.t - s.last_motion_save < cfg.motion_cooldown →
        (ccsStep cfg s inp).motion_computations = s.motion_computations ∧
        (ccsStep cfg s inp).last_motion_save = s.last_motion_save ∧
        (inp.manualKey = false →
          (ccsStep cfg s inp).saved_images = s.saved_images)) ∧
    (∀ (cfg : CCSConfig) (s : CCSState) (inp : CCSInput) (pf : Frame),
        cfg.save_mode = SaveMode.motion → s.prev_frame = some pf →
        cfg.motion_cooldown ≤ inp.t - s.last_motion_save →
        (ccsStep cfg s inp).motion_computations = s.motion_computations + 1 ∧
        (ccsEffectiveThreshold cfg < ccsMotionPixels cfg inp.frame pf →
          inp.autoSaveOk = true → inp.manualKey = false →
          (ccsStep cfg s inp).saved_images = s.saved_images + 1 ∧
          (ccsStep cfg s inp).last_motion_save = inp.t)) ∧
    (∀ (cfg : FhdConfig) (s : FhdState) (inp : FhdInput) (pf : Frame),
        s.prev_frame = some pf →
        (fhdStep cfg s inp).motion_computations = s.motion_computations + 1) := by
  refine ⟨?_, ?_, ?_⟩
  · intro cfg s inp pf hmode hp hc
    have hp2 : (ccsTick s inp.t).prev_frame = some pf := hp
    have hc2 : inp.t - (ccsTick s inp.t).last_motion_save < cfg.motion_cooldown := hc
    have hd := ccsDecide_motion_cooldown cfg (ccsTick s inp.t) inp.t inp.frame pf
      hmode hp2 hc2
    unfold ccsStep
    rw [hd]
    refine ⟨?_, ?_, ?_⟩
    · rw [(ccsApplySaves_rest cfg inp _).2.2.2.1]
      rfl
    · rw [(ccsApplySaves_rest cfg inp _).2.2.1]
      rfl
    · intro hkey
      rw [ccsApplySaves_saved cfg inp _]
      simp [hkey]
      rfl
  · intro cfg s inp pf hmode hp hc
    have hp2 : (ccsTick s inp.t).prev_frame = some pf := hp
    have hc2 : cfg.motion_cooldown ≤ inp.t - (ccsTick s inp.t).last_motion_save := hc
    by_cases hm : ccsEffectiveThreshold cfg < ccsMotionPixels cfg inp.frame pf
    · have hd := ccsDecide_motion_detect cfg (ccsTick s inp.t) inp.t inp.frame pf
        hmode hp2 hc2 hm
      unfold ccsStep
      rw [hd]
      constructor
      · rw [(ccsApplySaves_rest cfg inp _).2.2.2.1]
        rfl
      · intro _ hok hkey
        constructor
        · rw [ccsApplySaves_saved cfg inp _]
          simp [hok, hkey]
          rfl
        · rw [(ccsApplySaves_rest cfg inp _).2.2.1]
    · have hd := ccsDecide_motion_still cfg (ccsTick s inp.t) inp.t inp.frame pf
        hmode hp2 hc2 hm
      unfold ccsStep
      rw [hd]
      constructor
      · rw [(ccsApplySaves_rest cfg inp _).2.2.2.1]
        rfl
      · intro hm2
        exact absurd hm2 hm
  · intro cfg s inp pf hp
    exact fhdStep_always_computes cfg s inp pf hp

/-- A concrete `capture_and_store` motion-mode state inside the cooldown
window: baseline stored, last motion save at t = 1. -/
def cooldownState : CCSState :=
  { ccsInit with prev_frame := some [0], last_motion_save := 1 }

/-- A concrete loop input at t = 3/2, half a second after the last motion
save. -/
def cooldownInput : CCSInput :=
  { t := 3/2, frame := [100], manualKey := false,
    autoSaveOk := true, manualSaveOk := true }

/-- Witness for C3 at a concrete in-cooldown motion state of
`capture_and_store`. -/
theorem motion_cooldown_gating_witness :
    (ccsStep cfgMotion4k cooldownState cooldownInput).motion_computations =
      cooldownState.motion_computations ∧
    (ccsStep cfgMotion4k cooldownState cooldownInput).last_motion_save =
      cooldownState.last_motion_save ∧
    (cooldownInput.manualKey = false →
      (ccsStep cfgMotion4k cooldownState cooldownInput).saved_images =
        cooldownState.saved_images) :=
  motion_cooldown_gating.1 cfgMotion4k cooldownState cooldownInput [0] rfl rfl
    (by norm_num [cooldownState, cooldownInput, ccsInit, cfgMotion4k])

/-- Claim C5 counterexample: with cooldown 1 s and `last_motion_save`
initialized to 0, two detected-motion frames at t = 0 and t = 1/2 (0.5 s
apart) produce zero saves, not exactly one: both fall inside the cooldown
window measured from session start. -/
theorem motion_pair_cooldown_counterexample :
    cfgFhd0.motion_threshold < countMotionPixels 15 [100] [0] ∧
    cfgFhd0.motion_threshold < countMotionPixels 15 [200] [100] ∧
    (fhdRun cfgFhd0 fhdInit
        [{ t := 0, frame := [0], saveOk := true },
         { t := 0, frame := [100], saveOk := true },
         { t := 1/2, frame := [200], saveOk := true }]).saved_images = 0 := by
  refine ⟨by decide, by decide, ?_⟩
  norm_num [fhdRun, fhdStep, fhdTick, fhdApplySave, detect_motion, fhdInit,
    cfgFhd0, appendWindow, countMotionPixels, Nat.dist]

/-- Claim C5 (amended): with cooldown 1 s, provided the first
detected-motion frame arrives at least one cooldown after the session
start (always true for wall-clock time), two detected-motion frames 0.5 s
apart yield exactly one save and two such frames 1.5 s apart yield exactly
two saves in the `capture_and_record` loop. -/
theorem motion_pair_cooldown_saves (cfg : FhdConfig) (t0 t1 : ℚ) (f0 f1 f2 : Frame)
    (hcool : cfg.motion_cooldown = 1) (ht1 : 1 ≤ t1)
    (hm1 : cfg.motion_threshold < countMotionPixels 15 f1 f0)
    (hm2 : cfg.motion_threshold < countMotionPixels 15 f2 f1) :
    (fhdRun cfg fhdInit
        [{ t := t0, frame := f0, saveOk := true },
         { t := t1, frame := f1, saveOk := true },
         { t := t1 + 1/2, frame := f2, saveOk := true }]).saved_images = 1 ∧
    (fhdRun cfg fhdInit
        [{ t := t0, frame := f0, saveOk := true },
         { t := t1, frame := f1, saveOk := true },
         { t := t1 + 3/2, frame := f2, saveOk := true }]).saved_images = 2 := by
  have hrun : ∀ (i2 : FhdInput),
      fhdRun cfg fhdInit [{ t := t0, frame := f0, saveOk := true },
        { t := t1, frame := f1, saveOk := true }, i2] =
      fhdStep cfg (fhdStep cfg (fhdStep cfg fhdInit
        { t := t0, frame := f0, saveOk := true })
        { t := t1, frame := f1, saveOk := true }) i2 := by
    intro i2
    rfl
  set s1 := fhdStep cfg fhdInit { t := t0, frame := f0, saveOk := true } with hs1
  have h1 := fhdStep_first_frame cfg fhdInit
    { t := t0, frame := f0, saveOk := true } rfl
  have h1p : s1.prev_frame = some f0 := fhdStep_prev_frame cfg fhdInit _
  have h1saved : s1.saved_images = 0 := by rw [← hs1] at h1; exact h1.1
  have h1last : s1.last_motion_save = 0 := by rw [← hs1] at h1; exact h1.2.1
  set s2 := fhdStep cfg s1 { t := t1, frame := f1, saveOk := true } with hs2
  have hc1 : cfg.motion_cooldown ≤
      ({ t := t1, frame := f1, saveOk := true } : FhdInput).t - s1.last_motion_save := by
    rw [h1last, hcool, sub_zero]
    exact ht1
  have h2 := fhdStep_motion_save cfg s1 { t := t1, frame := f1, saveOk := true }
    f0 h1p hm1 hc1 rfl
  have h2p : s2.prev_frame = some f1 := fhdStep_prev_frame cfg s1 _
  have h2saved : s2.saved_images = 1 := by
    rw [← hs2] at h2
    rw [h2.1, h1saved]
  have h2last : s2.last_motion_save = t1 := by rw [← hs2] at h2; exact h2.2.1
  constructor
  · rw [hrun { t := t1 + 1/2, frame := f2, saveOk := true }]
    have hc2 : ({ t := t1 + 1/2, frame := f2, saveOk := true } : FhdInput).t -
        s2.last_motion_save < cfg.motion_cooldown := by
      rw [h2last, hcool]
      norm_num
    have h3 := fhdStep_cooldown_blocked cfg s2
      { t := t1 + 1/2, frame := f2, saveOk := true } f1 h2p hc2
    rw [h3.1, h2saved]
  · rw [hrun { t := t1 + 3/2, frame := f2, saveOk := true }]
    have hc2 : cfg.motion_cooldown ≤
        ({ t := t1 + 3/2, frame := f2, saveOk := true } : FhdInput).t -
          s2.last_motion_save := by
      rw [h2last, hcool]
      norm_num
    have h3 := fhdStep_motion_save cfg s2
      { t := t1 + 3/2, frame := f2, saveOk := true } f1 h2p hm2 hc2 rfl
    rw [h3.1, h2saved]

/-- Witness for C5 with concrete frames of one changed pixel and the first
motion frame exactly one cooldown after start. -/
theorem motion_pair_cooldown_saves_witness :
    (fhdRun cfgFhd0 fhdInit
        [{ t := 0, frame := [0], saveOk := true },
         { t := 1, frame := [100], saveOk := true },
         { t := 1 + 1/2, frame := [200], saveOk := true }]).saved_images = 1 ∧
    (fhdRun cfgFhd0 fhdInit
        [{ t := 0, frame := [0], saveOk := true },
         { t := 1, frame := [100], saveOk := true },
         { t := 1 + 3/2, frame := [200], saveOk := true }]).saved_images = 2 :=
  motion_pair_cooldown_saves cfgFhd0 0 1 [0] [100] [200] rfl (le_refl 1)
    (by decide) (by decide)

/-- Claim C6 counterexample: two saves in the same millisecond generate
the same filename, and the second `cv2.imwrite` silently replaces the
first artifact — afterwards the filesystem holds a single file with the
second content and no error was ever reported. -/
theorem filename_collision_counterexample :
    get_image_filename "capture" { hour := 14, minute := 3, second := 7, millis := 42 } =
      "capture_14-03-07-042.jpg" ∧
    save_frame_fs (save_frame_fs [] "capture"
        { hour := 14, minute := 3, second := 7, millis := 42 } 1)
      "capture" { hour := 14, minute := 3, second := 7, millis := 42 } 2 =
      [("capture_14-03-07-042.jpg", 2)] := by
  constructor
  · rfl
  · simp [save_frame_fs, writeFile]
    rfl

/-- Claim C6 (amended): saved image filenames have the form
`<prefix>_<HH-MM-SS-mmm>.jpg` with two-digit hour, minute and second
fields and a three-digit millisecond field; but a collision (two saves in
the same millisecond) raises no error and is not surfaced to the caller —
the second save silently overwrites the earlier artifact. -/
theorem filename_format_and_overwrite (pfx : String) (ts : ClockTime)
    (hh : ts.hour < 24) (hmin : ts.minute < 60) (hsec : ts.second < 60)
    (hms : ts.millis < 1000) :
    (get_image_filename pfx ts =
      pfx ++ "_" ++
        (pad2 ts.hour ++ "-" ++ pad2 ts.minute ++ "-" ++ pad2 ts.second ++ "-" ++
          pad3 ts.millis) ++ ".jpg") ∧
    ((pad2 ts.hour).length = 2 ∧ (pad2 ts.minute).length = 2 ∧
     (pad2 ts.second).length = 2 ∧ (pad3 ts.millis).length = 3) ∧
    ((∀ c ∈ (pad2 ts.hour).data, c.isDigit = true) ∧
     (∀ c ∈ (pad2 ts.minute).data, c.isDigit = true) ∧
     (∀ c ∈ (pad2 ts.second).data, c.isDigit = true) ∧
     (∀ c ∈ (pad3 ts.millis).data, c.isDigit = true)) ∧
    (∀ (fs : Fs) (c1 c2 : Nat),
      readFile (save_frame_fs (save_frame_fs fs pfx ts c1) pfx ts c2)
        (get_image_filename pfx ts) = some c2) := by
  refine ⟨rfl, ⟨rfl, rfl, rfl, rfl⟩, ⟨?_, ?_, ?_, ?_⟩, ?_⟩
  · intro c hc
    simp only [pad2, List.mem_cons, List.not_mem_nil, or_false] at hc
    rcases hc with h | h <;> subst h <;> exact digitChar_isDigit (by omega)
  · intro c hc
    simp only [pad2, List.mem_cons, List.not_mem_nil, or_false] at hc
    rcases hc with h | h <;> subst h <;> exact digitChar_isDigit (by omega)
  · intro c hc
    simp only [pad2, List.mem_cons, List.not_mem_nil, or_false] at hc
    rcases hc with h | h <;> subst h <;> exact digitChar_isDigit (by omega)
  · intro c hc
    simp only [pad3, List.mem_cons, List.not_mem_nil, or_false] at hc
    rcases hc with h | h | h <;> subst h <;> exact digitChar_isDigit (by omega)
  · intro fs c1 c2
    unfold save_frame_fs
    exact readFile_writeFile _ _ _

/-- Witness for C6 at a concrete clock time and prefix. -/
theorem filename_format_and_overwrite_witness :
    (get_image_filename "capture" { hour := 14, minute := 3, second := 7, millis := 42 } =
      "capture" ++ "_" ++
        (pad2 14 ++ "-" ++ pad2 3 ++ "-" ++ pad2 7 ++ "-" ++ pad3 42) ++ ".jpg") ∧
    ((pad2 14).length = 2 ∧ (pad2 3).length = 2 ∧
     (pad2 7).length = 2 ∧ (pad3 42).length = 3) ∧
    ((∀ c ∈ (pad2 14).data, c.isDigit = true) ∧
     (∀ c ∈ (pad2 3).data, c.isDigit = true) ∧
     (∀ c ∈ (pad2 7).data, c.isDigit = true) ∧
     (∀ c ∈ (pad3 42).data, c.isDigit = true)) ∧
    (∀ (fs : Fs) (c1 c2 : Nat),
      readFile (save_frame_fs (save_frame_fs fs "capture"
          { hour := 14, minute := 3, second := 7, millis := 42 } c1)
        "capture" { hour := 14, minute := 3, second := 7, millis := 42 } c2)
        (get_image_filename "capture"
          { hour := 14, minute := 3, second := 7, millis := 42 }) = some c2) :=
  filename_format_and_overwrite "capture"
    { hour := 14, minute := 3, second := 7, millis := 42 }
    (by decide) (by decide) (by decide) (by decide)
